import Mathlib

/-!
Verification of the caching / token-refresh / pagination / enrichment pipeline of
the trakt-function-calling-proxy repository.

The JavaScript source is embedded shallowly:
* plain objects and `Map`s become association lists (`List (String × _)`),
* JS primitive values become `JsPrim`,
* `Date.now()` timestamps and TTLs become `ℚ` (JS numbers on the integral
  ranges exercised here behave like exact rationals),
* promises become `JsPromise` wrappers whose object-truthiness is explicit,
* fallible code returns `Except`.

Each definition carries a comment naming the source file and function it embeds.
-/

/-- JS primitive values as they occur in parameter bags and records. -/
inductive JsPrim where
  | vnull
  | vundefined
  | vstr (s : String)
  | vnum (n : Int)
  | vbool (b : Bool)
deriving DecidableEq, Repr

/-- JS truthiness check `value !== undefined && value !== null` used by the
key-builder filters (`filter(([_, value]) => value !== undefined && value !== null)`). -/
def JsPrim.isNonNullish : JsPrim → Bool
  | .vnull => false
  | .vundefined => false
  | _ => true

/-- JS `String(value)` conversion of a primitive, as performed by the
`getStringifiedValue` helper (imported by the cache manager from
`../utils/utils.js`, a file not present in the provided sources) and by the
template literal `` `${key}=${value}` ``.  The key-determinism claim does not
depend on the particular rendering, only on it being a function of the value. -/
def getStringifiedValue : JsPrim → String
  | .vnull => "null"
  | .vundefined => "undefined"
  | .vstr s => s
  | .vnum n => toString n
  | .vbool b => if b then "true" else "false"

/-- Association-list lookup, modelling JS property access / `Map.get`. -/
def assocFind {β : Type} (l : List (String × β)) (k : String) : Option β :=
  match l with
  | [] => none
  | (k2, v) :: rest => if k2 = k then some v else assocFind rest k

/-- `Map.set` / property assignment: replaces the value in place when the key
exists (JS preserves the original insertion position), appends otherwise. -/
def assocSet {β : Type} (l : List (String × β)) (k : String) (v : β) : List (String × β) :=
  match l with
  | [] => [(k, v)]
  | (k2, v2) :: rest =>
      if k2 = k then (k2, v) :: rest else (k2, v2) :: assocSet rest k v

/-- `Map.delete`. -/
def assocErase {β : Type} (l : List (String × β)) (k : String) : List (String × β) :=
  l.filter (fun kv => kv.1 ≠ k)

/-- Ordering of parameter entries by key, modelling the
`sort(([keyA], [keyB]) => keyA.localeCompare(keyB))` comparator.  For the ASCII
parameter names the client uses, `localeCompare` is a strict total order on
distinct keys, modelled here by the lexicographic order on `String`. -/
def keyLE {β : Type} (a b : String × β) : Prop := a.1 ≤ b.1

instance {β : Type} : DecidableRel (keyLE (β := β)) :=
  fun a b => inferInstanceAs (Decidable (a.1 ≤ b.1))

instance {β : Type} : IsTotal (String × β) keyLE :=
  ⟨fun a b => le_total a.1 b.1⟩

instance {β : Type} : IsTrans (String × β) keyLE :=
  ⟨fun _ _ _ h1 h2 => le_trans h1 h2⟩

/-- The entry-canonicalisation pipeline shared by both `createKey`
implementations: drop null/undefined-valued entries, sort by key.
(JS `Array.prototype.sort` with a strict-total-order comparator is modelled by
insertion sort; on key-distinct inputs every comparison sort agrees.) -/
def sortedEntries (params : List (String × JsPrim)) : List (String × JsPrim) :=
  List.insertionSort keyLE (params.filter (fun kv => kv.2.isNonNullish))

/-- The `&`-joined `key=value` rendering of the canonicalised entries. -/
def sortedParamString (params : List (String × JsPrim)) : String :=
  String.intercalate "&"
    ((sortedEntries params).map (fun kv => kv.1 ++ "=" ++ getStringifiedValue kv.2))

/-- `createKey` of src/src/cache/cache-manager.js (lines 66-74): single
parameter object, returns `` `${cacheType}?${sortedParams}` `` or bare
`cacheType` when the rendered parameter string is empty. -/
def createKeyCM (cacheType : String) (params : List (String × JsPrim)) : String :=
  let sortedParams := sortedParamString params
  if sortedParams ≠ "" then cacheType ++ "?" ++ sortedParams else cacheType

/-- A positional parameter of the part_014 `createKey` (its `params` is an
`any[]` whose elements are objects or primitives). -/
inductive JsParam where
  | obj (fields : List (String × JsPrim))
  | prim (v : JsPrim)
deriving DecidableEq, Repr

/-- `createKey` of the part_014 cache manager (lines 136-153): starts from
`[cacheType]`, appends `?sortedParams` for object parameters and
`:stringified` for primitive ones, and joins with `''`. -/
def createKeyP14 (cacheType : String) (params : List JsParam) : String :=
  cacheType ++ String.join (params.map (fun p =>
    match p with
    | .obj fields => "?" ++ sortedParamString fields
    | .prim v => ":" ++ getStringifiedValue v))

/-- JS `Math.round` (round half toward +∞), on exact rationals. -/
def jsRound (q : ℚ) : ℤ := ⌊q + 1/2⌋

/-- Truthiness of an optional JS number (`undefined`, `null` and `0` are falsy). -/
def ttlTruthy (o : Option ℚ) : Bool :=
  match o with
  | some t => t ≠ 0
  | none => false

/-- A memory-tier entry `{value, expiresAt}` (`expiresAt` in ms; `undefined`
when the entry never expires). -/
structure MemEntry (α : Type) where
  value : α
  expiresAt : Option ℚ
deriving DecidableEq, Repr

/-- A durable-tier (node-persist) datum: value plus absolute expiry `ttl` in ms
(`undefined` when the datum never expires). -/
structure DiskEntry (α : Type) where
  value : α
  ttlAbs : Option ℚ
deriving DecidableEq, Repr

/-- The two-tier cache state: the in-memory `Map` and the node-persist store. -/
structure CacheState (α : Type) where
  mem : List (String × MemEntry α)
  disk : List (String × DiskEntry α)
deriving DecidableEq, Repr

def CacheState.empty (α : Type) : CacheState α := ⟨[], []⟩

/-- The memory freshness test
`memoryItem && (!memoryItem.expiresAt || Date.now() < memoryItem.expiresAt)`
(an `expiresAt` of `0` is falsy and hence treated as "no expiry"). -/
def memFresh {α : Type} (e : MemEntry α) (now : ℚ) : Bool :=
  match e.expiresAt with
  | none => true
  | some t => t = 0 ∨ now < t

/-- node-persist `getItem`: returns the value unless the datum is expired
(`datum.ttl && datum.ttl < Date.now()`). -/
def diskGetItem {α : Type} (disk : List (String × DiskEntry α)) (now : ℚ) (key : String) :
    Option α :=
  match assocFind disk key with
  | none => none
  | some d =>
      match d.ttlAbs with
      | none => some d.value
      | some t => if t ≠ 0 ∧ t < now then none else some d.value

/-- The fuzzed TTL `Math.round(ttl * (1 + (Math.random() * 0.2 - 0.1)))`
computed by the part_014 `set` (line 204); `rand` stands for the
`Math.random()` draw. -/
def effectiveFuzzyTtl (t rand : ℚ) : ℤ := jsRound (t * (1 + (rand * (2/10) - 1/10)))

/-- Expiry instant written to the durable tier by `storage.setItem`: an explicit
`ttl` option yields `now + ttl` ms, otherwise node-persist falls back to the
instance default configured at `init` (`DEFAULT_TTL.DEFAULT * 1_000` = 3 600 000 ms). -/
def diskExpiryOf (now : ℚ) (ttlMs : Option ℚ) : Option ℚ :=
  match ttlMs with
  | some t => if t ≠ 0 then some (now + t) else some (now + 3600000)
  | none => some (now + 3600000)

/-- `set` of src/src/cache/cache-manager.js (lines 115-125): memory always,
durable unless `memoryOnly`; `expiresAt = ttl ? Date.now() + ttl * 1000 : undefined`. -/
def cmSet {α : Type} (st : CacheState α) (now : ℚ) (key : String) (value : α)
    (ttl : Option ℚ) (memoryOnly : Bool) : CacheState α :=
  let expiresAt : Option ℚ := if ttlTruthy ttl then some (now + ttl.getD 0 * 1000) else none
  let mem2 := assocSet st.mem key ⟨value, expiresAt⟩
  let disk2 :=
    if memoryOnly then st.disk
    else assocSet st.disk key
      ⟨value, diskExpiryOf now (if ttlTruthy ttl then some (ttl.getD 0 * 1000) else none)⟩
  ⟨mem2, disk2⟩

/-- `set` of the part_014 cache manager (lines 202-218): like `cmSet` but with
the fuzzy-TTL option; `rand` models the `Math.random()` draw. -/
def p14Set {α : Type} (st : CacheState α) (now : ℚ) (key : String) (value : α)
    (ttl : Option ℚ) (memoryOnly : Bool) (useFuzzyTtl : Bool) (rand : ℚ) : CacheState α :=
  let actualTtl : Option ℚ :=
    if useFuzzyTtl ∧ ttlTruthy ttl then some ((effectiveFuzzyTtl (ttl.getD 0) rand : ℤ) : ℚ)
    else ttl
  let expiresAt : Option ℚ :=
    if ttlTruthy actualTtl then some (now + actualTtl.getD 0 * 1000) else none
  let mem2 := assocSet st.mem key ⟨value, expiresAt⟩
  let disk2 :=
    if memoryOnly then st.disk
    else assocSet st.disk key
      ⟨value, diskExpiryOf now (if ttlTruthy actualTtl then some (actualTtl.getD 0 * 1000) else none)⟩
  ⟨mem2, disk2⟩

/-- Durable phase of the src/src `get` (lines 95-103): on a disk hit the value
is mirrored into memory via `set(key, diskItem, { memoryOnly: true })` — with
no TTL. -/
def cmGetDisk {α : Type} (st : CacheState α) (now : ℚ) (key : String) :
    Option α × CacheState α :=
  match diskGetItem st.disk now key with
  | none => (none, st)
  | some v => (some v, cmSet st now key v none true)

/-- `get` of src/src/cache/cache-manager.js (lines 83-104), at an atomic
instant `now`: memory first (read-time expiry check), then — unless
`useMemoryOnly` — the durable tier with memory repopulation. -/
def cmGet {α : Type} (st : CacheState α) (now : ℚ) (key : String) (useMemoryOnly : Bool) :
    Option α × CacheState α :=
  match assocFind st.mem key with
  | some e =>
      if memFresh e now then (some e.value, st)
      else if useMemoryOnly then (none, st) else cmGetDisk st now key
  | none =>
      if useMemoryOnly then (none, st) else cmGetDisk st now key

/-- Durable phase of the part_014 `get` (lines 174-187): on a disk hit, the
remaining TTL `storeDatum.ttl - Date.now()` is carried over to the memory
mirror as `Math.round(ttlMilliseconds / 1_000)` seconds (no restore when the
remaining TTL is exactly 0). -/
def p14GetDisk {α : Type} (st : CacheState α) (now : ℚ) (key : String) :
    Option α × CacheState α :=
  match diskGetItem st.disk now key with
  | none => (none, st)
  | some v =>
      let datum := assocFind st.disk key
      let ttlMilliseconds : Option ℚ :=
        match datum with
        | some d =>
            match d.ttlAbs with
            | some t => if t ≠ 0 then some (max 0 (t - now)) else none
            | none => none
        | none => none
      if ttlMilliseconds ≠ some 0 then
        let ttlSec : Option ℚ :=
          match ttlMilliseconds with
          | some ms => if ms ≠ 0 then some ((jsRound (ms / 1000) : ℤ) : ℚ) else some ms
          | none => none
        (some v, p14Set st now key v ttlSec true false 0)
      else (some v, st)

/-- `get` of the part_014 cache manager (lines 162-190), at an atomic instant
`now`. -/
def p14Get {α : Type} (st : CacheState α) (now : ℚ) (key : String) (useMemoryOnly : Bool) :
    Option α × CacheState α :=
  match assocFind st.mem key with
  | some e =>
      if memFresh e now then (some e.value, st)
      else if useMemoryOnly then (none, st) else p14GetDisk st now key
  | none =>
      if useMemoryOnly then (none, st) else p14GetDisk st now key

/-- `has` of the part_014 cache manager (lines 237-245); the src/src variant
(lines 144-152) is textually identical. -/
def p14Has {α : Type} (st : CacheState α) (now : ℚ) (key : String) (checkMemoryOnly : Bool) :
    Bool :=
  let inMemory :=
    match assocFind st.mem key with
    | some e => memFresh e now
    | none => false
  if inMemory || checkMemoryOnly then inMemory
  else (diskGetItem st.disk now key).isSome

/-- JS `a || b` on an optional number (`undefined`/`null`/`0` fall through). -/
def jsNumOr (a : Option ℚ) (b : ℚ) : ℚ :=
  match a with
  | some x => if x = 0 then b else x
  | none => b

/-- The `DEFAULT_TTL` table of src/src/cache/cache-manager.js (lines 21-28),
in seconds, looked up by cache type. -/
def DEFAULT_TTL_CM (cacheType : String) : Option ℚ :=
  assocFind
    [("DEFAULT", 3600), ("history", 300), ("ratings", 300),
     ("watchlist", 300), ("trending", 3600), ("search", 3600)] cacheType

/-- A JS promise object.  An `async` function returns one; awaiting it yields
`payload`.  As an *object* it is truthy regardless of its eventual resolution. -/
structure JsPromise (α : Type) where
  payload : α
deriving DecidableEq, Repr

/-- JS truthiness of an object reference: always `true`. -/
def jsTruthyObj {α : Type} (_ : JsPromise α) : Bool := true

/-- Resolved outcome of one `#cachedRequest` call: the value the awaiting
caller sees (`.ok none` is a resolved JS `null`), the cache state afterwards,
whether the wrapped upstream method was invoked, and whether the stale-data
warning was logged. -/
structure CachedOutcome (α : Type) where
  result : Except String (Option α)
  state : CacheState α
  fetchCalled : Bool
  warned : Bool
deriving Repr

/-- The fetch-then-cache / stale-fallback tail of `#cachedRequest`
(src/src/cache/cached-trakt-client.js lines 97-113).  `fetch` is the outcome of
`fetchFunction(params)`.  In the catch branch, `cacheManager.get` is again not
awaited: `staleData` is a promise, `if (staleData)` sees a truthy object, and
the async function resolves to whatever the promise resolves to. -/
def cachedRequestFetchPath {α : Type} (st : CacheState α) (now : ℚ) (cacheKey : String)
    (effectiveTtl : ℚ) (fetch : Except String α) (forceRefresh : Bool) : CachedOutcome α :=
  match fetch with
  | .ok freshData =>
      ⟨.ok (some freshData), cmSet st now cacheKey freshData (some effectiveTtl) false,
        true, false⟩
  | .error e =>
      if forceRefresh then
        let staleData : JsPromise (Option α × CacheState α) := ⟨cmGet st now cacheKey false⟩
        if jsTruthyObj staleData then
          ⟨.ok staleData.payload.1, staleData.payload.2, true, true⟩
        else ⟨.error e, st, true, false⟩
      else ⟨.error e, st, true, false⟩

/-- `#cachedRequest` of src/src/cache/cached-trakt-client.js (lines 85-114), at
an atomic instant `now`.  Line 91 reads
`const cachedData = cacheManager.get(cacheKey);` without `await`: `cachedData`
is a `JsPromise`, `if (cachedData)` tests object truthiness, and the early
`return cachedData` resolves to the promise's payload — the cached value or
`null`. -/
def cachedRequest {α : Type} (st : CacheState α) (now : ℚ) (cacheType : String)
    (params : List (String × JsPrim)) (fetch : Except String α) (forceRefresh : Bool)
    (ttl : Option ℚ) : CachedOutcome α :=
  let cacheKey := createKeyCM cacheType params
  let effectiveTtl := jsNumOr ttl (jsNumOr (DEFAULT_TTL_CM cacheType) 300)
  if ¬ forceRefresh then
    let cachedData : JsPromise (Option α × CacheState α) := ⟨cmGet st now cacheKey false⟩
    if jsTruthyObj cachedData then
      ⟨.ok cachedData.payload.1, cachedData.payload.2, false, false⟩
    else cachedRequestFetchPath st now cacheKey effectiveTtl fetch forceRefresh
  else cachedRequestFetchPath st now cacheKey effectiveTtl fetch forceRefresh

/-- Pagination metadata parsed from the `x-pagination-*` response headers
(part_019 `Pagination` typedef); the src/src/trakt/client.js variant names the
page-size field `limit`. -/
structure Pagination where
  itemCount : Nat
  pageCount : Nat
  pageSize : Nat
  page : Nat
deriving DecidableEq, Repr

/-- One upstream HTTP response: status, JSON array body, pagination headers. -/
structure HttpResp (ι : Type) where
  status : Nat
  items : List ι
  pg : Pagination
deriving DecidableEq, Repr

/-- Outcome of one `#makeRequest` call. -/
inductive ReqOutcome (ι : Type) where
  | ok (items : List ι) (pg : Pagination)
  | apiError (status : Nat)
  | exhausted
deriving DecidableEq, Repr

/-- Trace of a `#makeRequest` call against a response oracle: outcome, unread
responses, number of HTTP requests issued, number of token refreshes. -/
structure ReqTrace (ι : Type) where
  outcome : ReqOutcome ι
  rest : List (HttpResp ι)
  requests : Nat
  refreshes : Nat
deriving DecidableEq, Repr

/-- `#makeRequest` of part_018 (lines 176-202); the src/src/trakt/client.js
variant (lines 141-166) has the same control flow and differs only in
returning the body without the response object.  `responses` is the oracle of
successive upstream responses; a 401 with `retry` set triggers
`#refreshAccessToken` and one recursive call with `retry: false`; any other
non-2xx status throws. -/
def makeRequest {ι : Type} (responses : List (HttpResp ι)) (retry : Bool) : ReqTrace ι :=
  match responses with
  | [] => ⟨.exhausted, [], 0, 0⟩
  | r :: rest =>
      if r.status = 401 ∧ retry then
        let t := makeRequest rest false
        ⟨t.outcome, t.rest, t.requests + 1, t.refreshes + 1⟩
      else if ¬ (200 ≤ r.status ∧ r.status < 300) then ⟨.apiError r.status, rest, 1, 0⟩
      else ⟨.ok r.items r.pg, rest, 1, 0⟩

/-- An element of the combined `allData` array built by the part_018
`#makePaginatedRequest`: either a genuine item, or — because
`additionalData.flat()` only flattens nested *arrays* and the promises resolve
to `{data, response}` objects — one of those wrapper objects, passed through
unchanged. -/
inductive PageElem (ι : Type) where
  | item (i : ι)
  | requestResult (data : List ι) (pg : Pagination)
deriving DecidableEq, Repr

/-- `#sliceData` of part_018 (lines 360-365): truncate to `limit` when the
limit is truthy. -/
def sliceData {β : Type} (data : List β) (limit : Option Nat) : List β :=
  match limit with
  | some l => if l ≠ 0 then data.take l else data
  | none => data

/-- Target last page computed at part_018 lines 225-227:
`limit ? Math.min(pageCount, Math.ceil(limit / pageSize)) : pageCount`.
A `pageSize` of 0 (missing header) makes `limit / pageSize` Infinity, whose
ceil-min with `pageCount` is `pageCount`. -/
def untilPageOf (limit : Option Nat) (pageCount pageSize : Nat) : Nat :=
  match limit with
  | some l =>
      if l ≠ 0 then
        if pageSize = 0 then pageCount else min pageCount ((l + pageSize - 1) / pageSize)
      else pageCount
  | none => pageCount

/-- Result of the part_018 `#makePaginatedRequest`: the combined (possibly
wrapper-polluted) data array, the reported pagination object, and the page
numbers requested beyond the initial request. -/
structure PagResult18 (ι : Type) where
  data : List (PageElem ι)
  pagination : Pagination
  requestedPages : List Nat
deriving DecidableEq, Repr

/-- `#makePaginatedRequest` of part_018 (lines 214-260).  `pageItems p` is the
body of a successful page-`p` response (the claims concern runs in which every
request succeeds); `hdr` is the pagination metadata of the initial response.
Lines 238-251: pages `page+1 .. untilPage` are requested via `#makeRequest`
(whose promises resolve to `{data, response}` objects), then
`allData = [...data, ...additionalData.flat()]` — the wrappers are not arrays,
so `.flat()` passes them through as single elements. -/
def makePaginatedRequestP18 {ι : Type} (pageItems : Nat → List ι) (hdr : Pagination)
    (autoPaginate : Bool) (limit : Option Nat) : PagResult18 ι :=
  let data := pageItems hdr.page
  let untilPage := untilPageOf limit hdr.pageCount hdr.pageSize
  if ¬ autoPaginate ∨ untilPage ≤ hdr.page then
    ⟨sliceData (data.map .item) limit,
      ⟨hdr.itemCount, hdr.pageCount, hdr.pageSize, hdr.page⟩, []⟩
  else
    let pages := List.range' (hdr.page + 1) (untilPage - hdr.page)
    let additionalData : List (PageElem ι) :=
      pages.map (fun p => .requestResult (pageItems p)
        ⟨hdr.itemCount, hdr.pageCount, hdr.pageSize, p⟩)
    let allData := data.map PageElem.item ++ additionalData
    ⟨sliceData allData limit,
      ⟨hdr.itemCount, hdr.pageCount, hdr.pageSize, untilPage + 1⟩, pages⟩

/-- Outcome of fetching the remaining pages via `#makeRequest` inside the
src/src/trakt/client.js `#makePaginatedRequest` (`Promise.all`, modelled as
sequential consumption of the oracle in page order under the single-threaded
scheduling model). -/
inductive PagesOutcome (ι : Type) where
  | ok (pagesData : List (List ι))
  | apiError (status : Nat)
  | exhausted
deriving DecidableEq, Repr

/-- The page-2..N fetch loop of `#makePaginatedRequest`
(src/src/trakt/client.js lines 220-232): one `#makeRequest` (retry enabled)
per remaining page; a rejection rejects the whole `Promise.all`. -/
def fetchRemainingPages {ι : Type} (responses : List (HttpResp ι)) (pages : List Nat) :
    PagesOutcome ι × List (HttpResp ι) × Nat × Nat :=
  match pages with
  | [] => (.ok [], responses, 0, 0)
  | _ :: ps =>
      let t := makeRequest responses true
      match t.outcome with
      | .ok items _ =>
          let r2 := fetchRemainingPages t.rest ps
          (match r2.1 with
            | .ok ds => .ok (items :: ds)
            | .apiError s => .apiError s
            | .exhausted => .exhausted,
           r2.2.1, t.requests + r2.2.2.1, t.refreshes + r2.2.2.2)
      | .apiError s => (.apiError s, t.rest, t.requests, t.refreshes)
      | .exhausted => (.exhausted, t.rest, t.requests, t.refreshes)

/-- Outcome of a `#makePaginatedRequest` call (src/src/trakt/client.js). -/
inductive PagOutcome (ι : Type) where
  | ok (data : List ι) (pg : Pagination)
  | apiError (status : Nat)
  | exhausted
deriving DecidableEq, Repr

/-- Trace of a src/src/trakt/client.js `#makePaginatedRequest` call. -/
structure PagTrace (ι : Type) where
  outcome : PagOutcome ι
  rest : List (HttpResp ι)
  requests : Nat
  refreshes : Nat
deriving DecidableEq, Repr

/-- `#makePaginatedRequest` of src/src/trakt/client.js (lines 178-241).  The
initial request is an inline `fetch`; on a 401 it refreshes the token and
recurses into itself **with the same arguments and no retry cap** (lines
190-194).  On success, `untilPage = Math.min(pageCount, maxPages ?? MAX)`,
remaining pages are fetched via `#makeRequest` (each body a plain array, so
`additionalData.flat()` genuinely concatenates them here). -/
def makePaginatedRequestClient {ι : Type} (responses : List (HttpResp ι))
    (autoPaginate : Bool) (maxPages : Option Nat) : PagTrace ι :=
  match responses with
  | [] => ⟨.exhausted, [], 0, 0⟩
  | r :: rest =>
      if r.status = 401 then
        let t := makePaginatedRequestClient rest autoPaginate maxPages
        ⟨t.outcome, t.rest, t.requests + 1, t.refreshes + 1⟩
      else if ¬ (200 ≤ r.status ∧ r.status < 300) then ⟨.apiError r.status, rest, 1, 0⟩
      else
        let untilPage :=
          match maxPages with
          | some m => min r.pg.pageCount m
          | none => r.pg.pageCount
        if ¬ autoPaginate ∨ untilPage ≤ r.pg.page then
          ⟨.ok r.items ⟨r.pg.itemCount, r.pg.pageCount, r.pg.pageSize, r.pg.page⟩,
            rest, 1, 0⟩
        else
          let pages := List.range' (r.pg.page + 1) (untilPage - r.pg.page)
          let r2 := fetchRemainingPages rest pages
          match r2.1 with
          | .ok ds =>
              ⟨.ok (r.items ++ ds.flatten)
                  ⟨r.pg.itemCount, r.pg.pageCount, r.pg.pageSize, untilPage + 1⟩,
                r2.2.1, 1 + r2.2.2.1, r2.2.2.2⟩
          | .apiError s => ⟨.apiError s, r2.2.1, 1 + r2.2.2.1, r2.2.2.2⟩
          | .exhausted => ⟨.exhausted, r2.2.1, 1 + r2.2.2.1, r2.2.2.2⟩

/-- The `ids` object of a typed payload; `trakt` itself may be absent. -/
structure PayloadIds where
  trakt : Option Int
deriving DecidableEq, Repr

/-- A type-selected nested payload (`item.movie`, `item.show`, ...); only the
parts the key derivations inspect are modelled. -/
structure Payload where
  ids : Option PayloadIds
deriving DecidableEq, Repr

/-- A raw typed media record as the key derivations see it: the `type` tag
(absent or empty string both fail the JS truthiness test), the nested
type-named payloads as a JS object (dynamic `item[type]` access), and the
optional top-level `ids` / `id` fields that part_019 `getItemKey` also probes. -/
structure RawItem where
  type : Option String
  fields : List (String × Payload)
  ids : Option PayloadIds
  id : Option Int
deriving DecidableEq, Repr

/-- JS truthiness of an optional string (absent, null and `''` are falsy). -/
def strTruthy (o : Option String) : Bool :=
  match o with
  | some s => s ≠ ""
  | none => false

/-- `` `${x}` `` for a possibly-absent number: JS renders `undefined`. -/
def renderOptInt (o : Option Int) : String :=
  match o with
  | some n => toString n
  | none => "undefined"

/-- `createItemKey` of src/src/services/enrichers/data-enricher.js (lines
43-55): empty string ("no key") whenever the type tag, the type-selected
payload, its `ids`, or a truthy `ids.trakt` is missing (`!itemData.ids.trakt`
is also true for a `trakt` id of 0); otherwise `` `${item.type}:${trakt}` ``. -/
def createItemKey (item : RawItem) : String :=
  if ¬ strTruthy item.type then ""
  else
    let t := item.type.getD ""
    match assocFind item.fields t with
    | none => ""
    | some pd =>
        match pd.ids with
        | none => ""
        | some ids =>
            match ids.trakt with
            | none => ""
            | some n => if n = 0 then "" else t ++ ":" ++ toString n

/-- `getItemKey` of part_019 (lines 11-29).  `type ??= item.type`; a falsy type
throws; `'ids' in item[type]` throws a TypeError when `item[type]` is
`undefined`; an `ids` object without `trakt` renders `"undefined"` into the
key; with no `ids`/`id` source at all it throws `'Item must have an ID'`. -/
def getItemKey (item : RawItem) (typeArg : Option String) : Except String String :=
  let t : Option String :=
    match typeArg with
    | some s => some s
    | none => item.type
  if ¬ strTruthy t then .error "Item type must be supplied for non-typed items"
  else
    let ts := t.getD ""
    match assocFind item.fields ts with
    | none =>
        .error "TypeError: Cannot use 'in' operator to search for 'ids' in undefined"
    | some pd =>
        match pd.ids with
        | some ids => .ok (ts ++ ":" ++ renderOptInt ids.trakt)
        | none =>
            match item.ids with
            | some ids => .ok (ts ++ ":" ++ renderOptInt ids.trakt)
            | none =>
                match item.id with
                | some n => .ok (ts ++ ":" ++ toString n)
                | none => .error "Item must have an ID"

/-- `{title, year}` payload of a movie or show. -/
structure TitledPayload where
  title : String
  year : Int
deriving DecidableEq, Repr

/-- `{number}` payload of a season. -/
structure SeasonPayload where
  number : Int
deriving DecidableEq, Repr

/-- `{season, number, title}` payload of an episode. -/
structure EpisodePayload where
  season : Int
  number : Int
  title : String
deriving DecidableEq, Repr

/-- An enriched item as the part_001 flatteners see it (history and ratings
variants share this shape; fields a variant does not use are simply absent).
The JS `show` payload field is spelled `showp` because `show` is reserved in
Lean. -/
structure EnrichedItem where
  type : String
  movie : Option TitledPayload
  showp : Option TitledPayload
  season : Option SeasonPayload
  episode : Option EpisodePayload
  rating : Option Int
  rated_at : Option String
  plays : Option Int
  watched_at : Option String
  last_watched_at : Option String
  favorite : Option Bool
  favorite_note : Option String
deriving DecidableEq, Repr

/-- Lift an optional value into a `JsPrim`, rendering absence as `undefined`. -/
def optPrim {β : Type} (f : β → JsPrim) (o : Option β) : JsPrim :=
  match o with
  | some b => f b
  | none => .vundefined

/-- The type-branch fields (part_001, lines 191-214 of the history flattener
and the textually identical lines 65-88 of the ratings flattener): property
assignments guarded by `item.type === '...' && payload-presence` checks, in
source order.  A type/payload combination matching no branch contributes
nothing. -/
def flattenBranchFields (it : EnrichedItem) : List (String × JsPrim) :=
  (if it.type = "movie" ∧ it.movie.isSome then
    [("title", .vstr (it.movie.getD ⟨"", 0⟩).title),
     ("year", .vnum (it.movie.getD ⟨"", 0⟩).year)]
  else []) ++
  (if it.type = "show" ∧ it.showp.isSome then
    [("title", .vstr (it.showp.getD ⟨"", 0⟩).title),
     ("year", .vnum (it.showp.getD ⟨"", 0⟩).year)]
  else []) ++
  (if it.type = "season" ∧ it.season.isSome ∧ it.showp.isSome then
    [("title", .vstr ((it.showp.getD ⟨"", 0⟩).title ++ " - Season "
        ++ toString (it.season.getD ⟨0⟩).number)),
     ("show_title", .vstr (it.showp.getD ⟨"", 0⟩).title),
     ("show_year", .vnum (it.showp.getD ⟨"", 0⟩).year),
     ("season", .vnum (it.season.getD ⟨0⟩).number)]
  else []) ++
  (if it.type = "episode" ∧ it.episode.isSome ∧ it.showp.isSome then
    [("show_title", .vstr (it.showp.getD ⟨"", 0⟩).title),
     ("show_year", .vnum (it.showp.getD ⟨"", 0⟩).year),
     ("episode_title", .vstr (it.episode.getD ⟨0, 0, ""⟩).title),
     ("episode_number", .vnum (it.episode.getD ⟨0, 0, ""⟩).number),
     ("season", .vnum (it.episode.getD ⟨0, 0, ""⟩).season)]
  else [])

/-- `flattenItem` of the part_001 history transformer (lines 184-226): the
flat object in property-insertion order.  Line 220 assigns
`item.watched_at !== item.last_watched_at ? item.last_watched_at : undefined`
(the key is always inserted; an `undefined` value is dropped by JSON
serialisation). -/
def flattenItemHistory (it : EnrichedItem) : List (String × JsPrim) :=
  [("type", .vstr it.type)] ++
  flattenBranchFields it ++
  [("rating", optPrim .vnum it.rating),
   ("plays", .vnum (it.plays.getD 0)),
   ("watched_at", optPrim .vstr it.watched_at),
   ("last_watched_at",
     if it.watched_at ≠ it.last_watched_at then optPrim .vstr it.last_watched_at
     else .vundefined),
   ("favorite", optPrim .vbool it.favorite),
   ("favorite_note", optPrim .vstr it.favorite_note)]

/-- `flattenItem` of the part_001 ratings transformer (lines 58-99): same
branches, then rating, rated_at, plays (default 0), last_watched_at, favorite,
favorite_note. -/
def flattenItemRatings (it : EnrichedItem) : List (String × JsPrim) :=
  [("type", .vstr it.type)] ++
  flattenBranchFields it ++
  [("rating", optPrim .vnum it.rating),
   ("rated_at", optPrim .vstr it.rated_at),
   ("plays", .vnum (it.plays.getD 0)),
   ("last_watched_at", optPrim .vstr it.last_watched_at),
   ("favorite", optPrim .vbool it.favorite),
   ("favorite_note", optPrim .vstr it.favorite_note)]

theorem assocFind_assocSet_self {β : Type} (l : List (String × β)) (k : String) (v : β) :
    assocFind (assocSet l k v) k = some v := by
  induction l with
  | nil => simp [assocSet, assocFind]
  | cons hd tl ih =>
      obtain ⟨k2, v2⟩ := hd
      by_cases h : k2 = k
      · simp [assocSet, assocFind, h]
      · simp [assocSet, assocFind, h, ih]

theorem assocFind_assocErase_self {β : Type} (l : List (String × β)) (k : String) :
    assocFind (assocErase l k) k = none := by
  induction l with
  | nil => simp [assocErase, assocFind]
  | cons hd tl ih =>
      obtain ⟨k2, v2⟩ := hd
      by_cases h : k2 = k
      · simpa [assocErase, assocFind, h] using ih
      · simpa [assocErase, assocFind, h] using ih

/-- Cache state holding the value 7 under the empty-parameter history key,
written at time 0 with the 300 s history TTL. -/
def c3State : CacheState Nat :=
  cmSet (CacheState.empty Nat) 0 (createKeyCM "history" []) 7 (some 300) false

/-- C1: the claim says a wrapped call without force-refresh serves a cache hit,
and on a miss calls through to the upstream client, caches the fresh result
and returns it.  The hit half holds, but on a miss `#cachedRequest` resolves to
`null` without ever invoking the upstream method or writing the cache: line 91
omits `await` on `cacheManager.get`, so the always-truthy promise is returned
as "the cached data".  Evaluated here at the failing input (empty cache,
upstream ready to return 42): the wrapper resolves to `null`, calls no fetch,
and leaves the cache untouched. -/
theorem cachedRequest_miss_never_fetches :
    (cachedRequest (CacheState.empty Nat) 0 "history" [] (.ok 42) false none).result
        = .ok none
    ∧ (cachedRequest (CacheState.empty Nat) 0 "history" [] (.ok 42) false none).fetchCalled
        = false
    ∧ (cachedRequest (CacheState.empty Nat) 0 "history" [] (.ok 42) false none).state
        = CacheState.empty Nat
    ∧ (cachedRequest c3State 5 "history" [] (.ok 42) false none).result = .ok (some 7) := by
  refine ⟨rfl, rfl, rfl, ?_⟩
  show Except.ok ((cmGet c3State 5 (createKeyCM "history" []) false).1) = .ok (some 7)
  norm_num [c3State, cmSet, cmGet, createKeyCM, sortedParamString, sortedEntries,
    assocSet, assocFind, CacheState.empty, ttlTruthy, memFresh]

/-- C3: the claim says a forced refresh whose live call fails falls back to a
previously cached value (logging a warning) and, with no cached value,
propagates the error.  The fallback half holds, but the propagation half does
not: line 106 omits `await` on `cacheManager.get`, so `if (staleData)` is
always taken and with an empty cache the wrapper resolves to `null`, swallowing
the upstream error instead of rethrowing it. -/
theorem cachedRequest_forced_error_swallowed :
    (cachedRequest c3State 5000 "history" [] (.error "boom") true none).result
        = .ok (some 7)
    ∧ (cachedRequest c3State 5000 "history" [] (.error "boom") true none).warned = true
    ∧ (cachedRequest (CacheState.empty Nat) 0 "history" [] (.error "boom") true none).result
        = .ok none
    ∧ (cachedRequest (CacheState.empty Nat) 0 "history" [] (.error "boom") true none).result
        ≠ .error "boom" := by
  refine ⟨?_, rfl, rfl,
    fun h => Except.noConfusion
      ((rfl :
        (cachedRequest (CacheState.empty Nat) 0 "history" [] (.error "boom") true none).result
          = .ok none).symm.trans h)⟩
  show Except.ok ((cmGet c3State 5000 (createKeyCM "history" []) false).1) = .ok (some 7)
  norm_num [c3State, cmSet, cmGet, createKeyCM, sortedParamString, sortedEntries,
    assocSet, assocFind, CacheState.empty, ttlTruthy, memFresh]

/-- Pages of 100 items each, as served by a 3-page, 300-item upstream
collection. -/
def c2Items : Nat → List Nat := fun p => (List.range 100).map (fun i => p * 100 + i)

/-- The part_018 auto-paginated fetch of that collection with `limit = 150`. -/
def c2Out : PagResult18 Nat := makePaginatedRequestP18 c2Items ⟨300, 3, 100, 1⟩ true (some 150)

/-- C2: the claim says this run returns exactly 150 items from the first two
pages and never requests page 3.  Page 3 is indeed not requested
(`untilPage = min(3, ceil(150/100)) = 2`), but the combined array has 101
elements, of which only 100 are items: `additionalData` holds the
`{data, response}` objects the `#makeRequest` promises resolve to, and
`additionalData.flat()` does not flatten non-array elements, so page 2 is
appended as a single wrapper object (contradicting the function's own
`@returns {data: T[]}` contract) and `slice(0, 150)` keeps all 101 elements. -/
theorem paginated_limit_wrapper_pollution :
    c2Out.requestedPages = [2]
    ∧ c2Out.data.length = 101
    ∧ (c2Out.data.filter (fun e => match e with | .item _ => true | _ => false)).length = 100
    ∧ c2Out.data.getLast? = some (.requestResult (c2Items 2) ⟨300, 3, 100, 2⟩)
    ∧ c2Out.data.length ≠ 150 := by
  refine ⟨rfl, rfl, rfl, rfl, by decide⟩

/-- C7 counterexample: with nominal TTL `t = 7` s and a `Math.random()` draw of
0, the fuzzed TTL is `Math.round(7 * 0.9) = Math.round(6.3) = 6`, which lies
below the claimed lower bound `0.9 * 7 = 6.3`. -/
theorem fuzzyTtl_outside_band :
    effectiveFuzzyTtl 7 0 = 6 ∧ ¬ ((9 : ℚ)/10 * 7 ≤ ((effectiveFuzzyTtl 7 0 : ℤ) : ℚ)) := by
  have h6 : effectiveFuzzyTtl 7 0 = 6 := by
    unfold effectiveFuzzyTtl jsRound
    rw [Int.floor_eq_iff]
    norm_num
  refine ⟨h6, ?_⟩
  rw [h6]
  norm_num

/-- An upstream 401 (invalid token) response. -/
def c4Resp : HttpResp Nat := ⟨401, [], ⟨0, 1, 0, 1⟩⟩

/-- C4: the claim says every 401 triggers exactly one refresh-and-retry and a
second 401 propagates — for single and auto-paginated requests alike.  This is
exactly what `#makeRequest` does (first conjuncts), but the initial request of
the src/src/trakt/client.js `#makePaginatedRequest` handles a 401 by recursing
into itself with unchanged arguments and no retry cap (lines 190-194): against
an upstream that keeps answering 401 it refreshes and re-requests once per
response, never propagating — with `n` pending 401 responses it issues `n`
requests and `n` refreshes and still has not thrown the claimed error. -/
theorem retry401_unbounded_for_paginated :
    (makeRequest [c4Resp, c4Resp] true).outcome = .apiError 401
    ∧ (makeRequest [c4Resp, c4Resp] true).requests = 2
    ∧ (makeRequest [c4Resp, c4Resp] true).refreshes = 1
    ∧ ∀ n : Nat,
        (makePaginatedRequestClient (List.replicate n c4Resp) true none).outcome
            = .exhausted
        ∧ (makePaginatedRequestClient (List.replicate n c4Resp) true none).requests = n
        ∧ (makePaginatedRequestClient (List.replicate n c4Resp) true none).refreshes = n := by
  have hstep : ∀ rest : List (HttpResp Nat),
      makePaginatedRequestClient (c4Resp :: rest) true none
        = ⟨(makePaginatedRequestClient rest true none).outcome,
           (makePaginatedRequestClient rest true none).rest,
           (makePaginatedRequestClient rest true none).requests + 1,
           (makePaginatedRequestClient rest true none).refreshes + 1⟩ := by
    intro rest
    simp [makePaginatedRequestClient, c4Resp]
  refine ⟨rfl, rfl, rfl, ?_⟩
  intro n
  induction n with
  | zero => exact ⟨rfl, rfl, rfl⟩
  | succ m ih =>
      obtain ⟨h1, h2, h3⟩ := ih
      rw [List.replicate_succ, hstep (List.replicate m c4Resp)]
      exact ⟨h1, by simp [h2], by simp [h3]⟩

/-- C7 (amended): for every nominal TTL `t > 0` and `Math.random()` draw
`rand ∈ [0,1)`, the fuzzed TTL `Math.round(t * (1 + (rand*0.2 - 0.1)))` lies in
the claimed ±10 % band widened by the half-unit of rounding:
`[0.9t - 1/2, 1.1t + 1/2]`. -/
theorem fuzzyTtl_bounds_rounded (t rand : ℚ) (ht : 0 < t) (h0 : 0 ≤ rand) (h1 : rand < 1) :
    9/10 * t - 1/2 ≤ ((effectiveFuzzyTtl t rand : ℤ) : ℚ)
    ∧ ((effectiveFuzzyTtl t rand : ℤ) : ℚ) ≤ 11/10 * t + 1/2 := by
  unfold effectiveFuzzyTtl jsRound
  set x : ℚ := t * (1 + (rand * (2/10) - 1/10)) with hx
  have hlow : 9/10 * t ≤ x := by nlinarith
  have hhigh : x ≤ 11/10 * t := by nlinarith
  constructor
  · have h := Int.sub_one_lt_floor (x + 1/2)
    have h2 : x - 1/2 < ((⌊x + 1/2⌋ : ℤ) : ℚ) := by linarith
    linarith
  · have h := Int.floor_le (x + 1/2)
    linarith

/-- Witness for `fuzzyTtl_bounds_rounded` at `t = 7`, `rand = 0`. -/
theorem fuzzyTtl_bounds_rounded_witness :
    9/10 * 7 - 1/2 ≤ ((effectiveFuzzyTtl 7 0 : ℤ) : ℚ)
    ∧ ((effectiveFuzzyTtl 7 0 : ℤ) : ℚ) ≤ 11/10 * 7 + 1/2 :=
  fuzzyTtl_bounds_rounded 7 0 (by norm_num) (by norm_num) (by norm_num)

/-- A cache state with a cold memory tier and one durable entry for `"k"`
expiring at 101 600 ms. -/
def c6State : CacheState Nat := ⟨[], [("k", ⟨5, some 101600⟩)]⟩

/-- C6 counterexample: at `now = 100000` the durable entry for `"k"` has
remaining TTL `r = 1600 ms`, yet the part_014 `get` repopulates the memory
tier with `Math.round(1600/1000) = 2` seconds, i.e. expiry 102 000 ms — later
than the durable source's 101 600 ms, contradicting "re-inserted with TTL `r`
... never expires later than its durable source". -/
theorem ttlCarryover_exceeds_durable :
    assocFind (p14Get c6State 100000 "k" false).2.mem "k" = some ⟨5, some 102000⟩
    ∧ ¬ ((102000 : ℚ) ≤ 101600) := by
  have h2 : jsRound ((8 : ℚ)/5) = 2 := by
    unfold jsRound
    rw [Int.floor_eq_iff]
    norm_num
  constructor
  · norm_num [p14Get, p14GetDisk, diskGetItem, c6State, assocFind, p14Set, ttlTruthy,
      assocSet, h2]
  · norm_num

/-- C6 (amended): a durable hit with remaining TTL `r = dexp - now > 0` on a
cold memory tier repopulates memory with `Math.round(r/1000)` *seconds* — the
remaining TTL quantised to whole seconds, never the original nominal TTL.
When the rounding yields 0 (`r < 500 ms`) the memory copy is stored without
any expiry; otherwise the memory expiry exceeds the durable expiry by at most
500 ms. -/
theorem ttlCarryover_amended {α : Type} (st : CacheState α) (now : ℚ) (key : String)
    (v : α) (dexp : ℚ)
    (hmem : assocFind st.mem key = none)
    (hdisk : assocFind st.disk key = some ⟨v, some dexp⟩)
    (hnow : 0 ≤ now) (hr : now < dexp) :
    (p14Get st now key false).1 = some v
    ∧ ((jsRound ((dexp - now) / 1000) = 0
          ∧ assocFind (p14Get st now key false).2.mem key = some ⟨v, none⟩)
       ∨ (jsRound ((dexp - now) / 1000) ≠ 0
          ∧ assocFind (p14Get st now key false).2.mem key
              = some ⟨v, some (now + (jsRound ((dexp - now) / 1000) : ℚ) * 1000)⟩
          ∧ now + (jsRound ((dexp - now) / 1000) : ℚ) * 1000 ≤ dexp + 500)) := by
  have hdpos : 0 < dexp := lt_of_le_of_lt hnow hr
  have hdnz : dexp ≠ 0 := ne_of_gt hdpos
  have hnlt : ¬ (dexp < now) := not_lt.mpr (le_of_lt hr)
  have hrpos : 0 < dexp - now := by linarith
  have hrnz : dexp - now ≠ 0 := ne_of_gt hrpos
  have hmax : max (0 : ℚ) (dexp - now) = dexp - now := max_eq_right (le_of_lt hrpos)
  have hgd : p14Get st now key false = p14GetDisk st now key := by
    simp [p14Get, hmem]
  have hdiskItem : diskGetItem st.disk now key = some v := by
    simp [diskGetItem, hdisk, hdnz, hnlt]
  have hbody : p14GetDisk st now key
      = (some v, p14Set st now key v (some ((jsRound ((dexp - now) / 1000) : ℤ) : ℚ))
          true false 0) := by
    simp [p14GetDisk, hdiskItem, hdisk, hdnz, hmax, hrnz]
  rw [hgd, hbody]
  refine ⟨rfl, ?_⟩
  by_cases hz : jsRound ((dexp - now) / 1000) = 0
  · left
    refine ⟨hz, ?_⟩
    simp [p14Set, ttlTruthy, hz, assocFind_assocSet_self]
  · right
    refine ⟨hz, ?_, ?_⟩
    · have hq : ((jsRound ((dexp - now) / 1000) : ℤ) : ℚ) ≠ 0 := by
        exact_mod_cast hz
      simp [p14Set, ttlTruthy, hq, assocFind_assocSet_self]
    · have hfl : ((jsRound ((dexp - now) / 1000) : ℤ) : ℚ) ≤ (dexp - now) / 1000 + 1/2 := by
        unfold jsRound
        exact_mod_cast Int.floor_le ((dexp - now) / 1000 + 1/2)
      linarith

/-- Witness for `ttlCarryover_amended` at the `c6State` input. -/
theorem ttlCarryover_amended_witness :
    (p14Get c6State 100000 "k" false).1 = some 5
    ∧ ((jsRound ((101600 - 100000) / 1000) = 0
          ∧ assocFind (p14Get c6State 100000 "k" false).2.mem "k" = some ⟨5, none⟩)
       ∨ (jsRound ((101600 - 100000) / 1000) ≠ 0
          ∧ assocFind (p14Get c6State 100000 "k" false).2.mem "k"
              = some ⟨5, some (100000 + (jsRound ((101600 - 100000) / 1000) : ℚ) * 1000)⟩
          ∧ 100000 + (jsRound ((101600 - 100000) / 1000) : ℚ) * 1000 ≤ 101600 + 500)) :=
  ttlCarryover_amended c6State 100000 "k" 5 101600 rfl rfl (by norm_num) (by norm_num)

/-- The example record `{type: "movie", movie: {ids: {trakt: 42}}}`. -/
def movieExample : RawItem := ⟨some "movie", [("movie", ⟨some ⟨some 42⟩⟩)], none, none⟩

/-- A record with a type tag but no type-selected nested payload. -/
def payloadlessItem : RawItem := ⟨some "movie", [], none, none⟩

/-- C5 counterexample: key derivation is *not* exception-free.  Applied to a
record whose type-selected nested payload is absent, the part_019 `getItemKey`
evaluates `'ids' in item[type]` with `item[type] === undefined` and throws a
TypeError instead of yielding "no key". -/
theorem getItemKey_throws_on_missing_payload :
    getItemKey payloadlessItem none
      = .error "TypeError: Cannot use 'in' operator to search for 'ids' in undefined"
    ∧ getItemKey ⟨some "movie", [("movie", ⟨none⟩)], none, none⟩ none
      = .error "Item must have an ID" := ⟨rfl, rfl⟩

/-- C5 (amended): on `{type: "movie", movie: {ids: {trakt: 42}}}` both
derivations yield `"movie:42"`.  The enricher's `createItemKey` is total and
yields `""` ("no key") whenever the type tag is falsy, the type-selected
payload is missing, or its `ids`/truthy `ids.trakt` is missing — so enrichment
is skipped, never thrown.  The part_019 `getItemKey`, by contrast, throws when
the type-selected payload is absent (TypeError from the `in` operator), so the
never-raises guarantee holds only for the `createItemKey` path. -/
theorem itemKey_derivation_amended :
    (createItemKey movieExample = "movie:42" ∧ getItemKey movieExample none = .ok "movie:42")
    ∧ (∀ item : RawItem, ¬ strTruthy item.type → createItemKey item = "")
    ∧ (∀ item : RawItem, assocFind item.fields (item.type.getD "") = none →
        createItemKey item = "")
    ∧ (∀ item : RawItem, ∀ pd : Payload,
        assocFind item.fields (item.type.getD "") = some pd → pd.ids = none →
        createItemKey item = "")
    ∧ (∀ item : RawItem, ∀ pd : Payload, ∀ ids : PayloadIds,
        assocFind item.fields (item.type.getD "") = some pd → pd.ids = some ids →
        (ids.trakt = none ∨ ids.trakt = some 0) → createItemKey item = "")
    ∧ (∀ item : RawItem, strTruthy item.type →
        assocFind item.fields (item.type.getD "") = none →
        getItemKey item none
          = .error "TypeError: Cannot use 'in' operator to search for 'ids' in undefined") := by
  refine ⟨⟨rfl, rfl⟩, ?_, ?_, ?_, ?_, ?_⟩
  · intro item h
    simp [createItemKey, h]
  · intro item h
    by_cases ht : strTruthy item.type
    · simp [createItemKey, ht, h]
    · simp [createItemKey, ht]
  · intro item pd h hids
    by_cases ht : strTruthy item.type
    · simp [createItemKey, ht, h, hids]
    · simp [createItemKey, ht]
  · intro item pd ids h hids htrakt
    by_cases ht : strTruthy item.type
    · rcases htrakt with h0 | h0 <;> simp [createItemKey, ht, h, hids, h0]
    · simp [createItemKey, ht]
  · intro item ht h
    simp [getItemKey, ht, h]

/-- Witness for `itemKey_derivation_amended`: the no-payload record derives the
empty "no key" via `createItemKey` and the TypeError via `getItemKey`. -/
theorem itemKey_derivation_amended_witness :
    createItemKey payloadlessItem = ""
    ∧ getItemKey payloadlessItem none
        = .error "TypeError: Cannot use 'in' operator to search for 'ids' in undefined" :=
  ⟨itemKey_derivation_amended.2.2.1 payloadlessItem rfl,
   itemKey_derivation_amended.2.2.2.2.2 payloadlessItem rfl rfl⟩

theorem sorted_keyNodup_eq {β : Type} :
    ∀ (l1 l2 : List (String × β)), l1.Perm l2 →
      l1.Sorted keyLE → l2.Sorted keyLE → (l1.map Prod.fst).Nodup → l1 = l2 := by
  intro l1
  induction l1 with
  | nil =>
      intro l2 hp _ _ _
      exact (List.Perm.nil_eq hp).symm ▸ rfl
  | cons a t ih =>
      intro l2 hp hs1 hs2 hnd
      match l2 with
      | [] => exact absurd hp.symm (by simp)
      | b :: t2 =>
          by_cases hab : a = b
          · subst hab
            have hp2 := hp.cons_inv
            have ht := ih t2 hp2 (List.Sorted.of_cons hs1) (List.Sorted.of_cons hs2)
              ((List.nodup_cons.mp hnd).2)
            rw [ht]
          · exfalso
            have hamem : a ∈ b :: t2 := hp.mem_iff.mp (List.mem_cons_self a t)
            have hat2 : a ∈ t2 := by
              rcases List.mem_cons.mp hamem with h | h
              · exact absurd h hab
              · exact h
            have hbmem : b ∈ a :: t := hp.symm.mem_iff.mp (List.mem_cons_self b t2)
            have hbt : b ∈ t := by
              rcases List.mem_cons.mp hbmem with h | h
              · exact absurd h.symm hab
              · exact h
            have h1 : a.1 ≤ b.1 := (List.sorted_cons.mp hs1).1 b hbt
            have h2 : b.1 ≤ a.1 := (List.sorted_cons.mp hs2).1 a hat2
            have hkey : a.1 = b.1 := le_antisymm h1 h2
            have : a.1 ∈ t.map Prod.fst := hkey ▸ List.mem_map_of_mem Prod.fst hbt
            exact (List.nodup_cons.mp hnd).1 (by simpa using this)

theorem sortedEntries_perm_eq (p q : List (String × JsPrim))
    (hperm : (p.filter (fun kv => kv.2.isNonNullish)).Perm
               (q.filter (fun kv => kv.2.isNonNullish)))
    (hnd : ((p.filter (fun kv => kv.2.isNonNullish)).map Prod.fst).Nodup) :
    sortedEntries p = sortedEntries q := by
  have hp : (sortedEntries p).Perm (sortedEntries q) :=
    ((List.perm_insertionSort keyLE _).trans hperm).trans
      (List.perm_insertionSort keyLE _).symm
  have hmp : ((sortedEntries p).map Prod.fst).Perm
      ((p.filter (fun kv => kv.2.isNonNullish)).map Prod.fst) :=
    (List.perm_insertionSort keyLE _).map Prod.fst
  have hnd2 : ((sortedEntries p).map Prod.fst).Nodup := hmp.nodup_iff.mpr hnd
  exact sorted_keyNodup_eq _ _ hp
    (List.sorted_insertionSort keyLE _) (List.sorted_insertionSort keyLE _) hnd2

/-- C8: for every cache type and every pair of parameter bags that contain the
same non-null entries — in any insertion order, with any further
null/undefined-valued entries — both `createKey` implementations yield the
identical key string.  (`hnd` records that a JS object cannot hold two
properties with the same name.) -/
theorem createKey_deterministic (ct : String) (p q : List (String × JsPrim))
    (hperm : (p.filter (fun kv => kv.2.isNonNullish)).Perm
               (q.filter (fun kv => kv.2.isNonNullish)))
    (hnd : ((p.filter (fun kv => kv.2.isNonNullish)).map Prod.fst).Nodup) :
    createKeyCM ct p = createKeyCM ct q
    ∧ createKeyP14 ct [.obj p] = createKeyP14 ct [.obj q] := by
  have hs : sortedEntries p = sortedEntries q := sortedEntries_perm_eq p q hperm hnd
  have hstr : sortedParamString p = sortedParamString q := by
    unfold sortedParamString
    rw [hs]
  constructor
  · unfold createKeyCM
    rw [hstr]
  · unfold createKeyP14
    simp [hstr]

/-- Witness for `createKey_deterministic`: two bags with the same non-null
entries in different orders, one carrying a null entry and the other an
undefined entry. -/
theorem createKey_deterministic_witness :
    createKeyCM "history" [("b", .vstr "2"), ("a", .vnum 1), ("c", .vnull)]
      = createKeyCM "history" [("a", .vnum 1), ("b", .vstr "2"), ("d", .vundefined)]
    ∧ createKeyP14 "history" [.obj [("b", .vstr "2"), ("a", .vnum 1), ("c", .vnull)]]
      = createKeyP14 "history" [.obj [("a", .vnum 1), ("b", .vstr "2"), ("d", .vundefined)]] :=
  createKey_deterministic "history"
    [("b", .vstr "2"), ("a", .vnum 1), ("c", .vnull)]
    [("a", .vnum 1), ("b", .vstr "2"), ("d", .vundefined)]
    (by decide) (by decide)

/-- C9: for every enriched record, both part_001 flatteners emit `type` first;
the claim-listed enrichment fields follow in the claimed relative order
(history: rating, plays, last_watched_at, favorite, favorite_note — with
`watched_at` between plays and last_watched_at; ratings: rating, rated_at,
plays, last_watched_at, favorite, favorite_note); the season branch emits the
synthesized `"{show} - Season {n}"` title followed by show_title, show_year,
season; a type/payload combination matching no branch leaves every
branch-specific field absent (the function is total, so no exception is
possible); `plays` defaults to 0; and the history `last_watched_at` carries a
value only when it differs from `watched_at` (an `undefined`-valued property
is dropped by JSON serialisation). -/
theorem flatten_field_order (it : EnrichedItem) :
    ((flattenItemHistory it).map Prod.fst).head? = some "type"
    ∧ ((flattenItemRatings it).map Prod.fst).head? = some "type"
    ∧ List.Sublist ["rating", "plays", "last_watched_at", "favorite", "favorite_note"]
        ((flattenItemHistory it).map Prod.fst)
    ∧ List.Sublist ["rating", "rated_at", "plays", "last_watched_at", "favorite",
        "favorite_note"] ((flattenItemRatings it).map Prod.fst)
    ∧ (∀ sp sh, it.type = "season" → it.season = some sp → it.showp = some sh →
        flattenItemHistory it
          = [("type", .vstr "season"),
             ("title", .vstr (sh.title ++ " - Season " ++ toString sp.number)),
             ("show_title", .vstr sh.title),
             ("show_year", .vnum sh.year),
             ("season", .vnum sp.number),
             ("rating", optPrim .vnum it.rating),
             ("plays", .vnum (it.plays.getD 0)),
             ("watched_at", optPrim .vstr it.watched_at),
             ("last_watched_at",
               if it.watched_at ≠ it.last_watched_at then optPrim .vstr it.last_watched_at
               else .vundefined),
             ("favorite", optPrim .vbool it.favorite),
             ("favorite_note", optPrim .vstr it.favorite_note)])
    ∧ (¬ (it.type = "movie" ∧ it.movie.isSome) →
       ¬ (it.type = "show" ∧ it.showp.isSome) →
       ¬ (it.type = "season" ∧ it.season.isSome ∧ it.showp.isSome) →
       ¬ (it.type = "episode" ∧ it.episode.isSome ∧ it.showp.isSome) →
        flattenItemHistory it
          = [("type", .vstr it.type),
             ("rating", optPrim .vnum it.rating),
             ("plays", .vnum (it.plays.getD 0)),
             ("watched_at", optPrim .vstr it.watched_at),
             ("last_watched_at",
               if it.watched_at ≠ it.last_watched_at then optPrim .vstr it.last_watched_at
               else .vundefined),
             ("favorite", optPrim .vbool it.favorite),
             ("favorite_note", optPrim .vstr it.favorite_note)])
    ∧ (it.plays = none → ("plays", .vnum 0) ∈ flattenItemHistory it)
    ∧ (it.watched_at = it.last_watched_at →
        ("last_watched_at", .vundefined) ∈ flattenItemHistory it) := by
  refine ⟨?_, ?_, ?_, ?_, ?_, ?_, ?_, ?_⟩
  · simp [flattenItemHistory]
  · simp [flattenItemRatings]
  · unfold flattenItemHistory flattenBranchFields
    split_ifs <;> simp <;> decide
  · unfold flattenItemRatings flattenBranchFields
    split_ifs <;> simp <;> decide
  · intro sp sh h1 h2 h3
    simp [flattenItemHistory, flattenBranchFields, h1, h2, h3]
  · intro h1 h2 h3 h4
    simp [flattenItemHistory, flattenBranchFields, h1, h2, h3, h4]
  · intro h
    simp [flattenItemHistory, h]
  · intro h
    simp [flattenItemHistory, h]

/-- The spec's worked example: a season-type enriched record with show title
"X", show year 2020, season number 3, equal watched timestamps, and no
rating/plays/favorite data. -/
def seasonExample : EnrichedItem :=
  ⟨"season", none, some ⟨"X", 2020⟩, some ⟨3⟩, none, none, none, none,
   some "2021-01-01", some "2021-01-01", none, none⟩

/-- Witness for `flatten_field_order` at the spec's season example. -/
theorem flatten_field_order_witness :
    flattenItemHistory seasonExample
      = [("type", .vstr "season"),
         ("title", .vstr ("X" ++ " - Season " ++ toString (3 : Int))),
         ("show_title", .vstr "X"),
         ("show_year", .vnum 2020),
         ("season", .vnum 3),
         ("rating", optPrim .vnum seasonExample.rating),
         ("plays", .vnum (seasonExample.plays.getD 0)),
         ("watched_at", optPrim .vstr seasonExample.watched_at),
         ("last_watched_at",
           if seasonExample.watched_at ≠ seasonExample.last_watched_at then
             optPrim .vstr seasonExample.last_watched_at
           else .vundefined),
         ("favorite", optPrim .vbool seasonExample.favorite),
         ("favorite_note", optPrim .vstr seasonExample.favorite_note)] :=
  (flatten_field_order seasonExample).2.2.2.2.1 ⟨3⟩ ⟨"X", 2020⟩ rfl rfl rfl

theorem p14GetDisk_fst {α : Type} (st : CacheState α) (now : ℚ) (key : String) :
    (p14GetDisk st now key).1 = diskGetItem st.disk now key := by
  unfold p14GetDisk
  rcases hd : diskGetItem st.disk now key with _ | v
  · simp
  · simp only []
    split_ifs <;> rfl

theorem cmGetDisk_fst {α : Type} (st : CacheState α) (now : ℚ) (key : String) :
    (cmGetDisk st now key).1 = diskGetItem st.disk now key := by
  unfold cmGetDisk
  rcases hd : diskGetItem st.disk now key with _ | v <;> rfl

/-- C10: the cache reads enforce expiry at access time.  If a memory-tier
entry's expiry instant `t` is positive and at or before `now`, then `get` (both
cache-manager variants) and `has` behave exactly as they would with that entry
deleted: an expired memory entry can never be returned nor reported as
present, independently of the periodic `#cleanupMemoryCache` sweep. -/
theorem memory_expiry_read_enforced {α : Type} (st : CacheState α) (now : ℚ) (key : String)
    (e : MemEntry α) (t : ℚ) (mo : Bool)
    (hmem : assocFind st.mem key = some e) (hexp : e.expiresAt = some t)
    (ht : 0 < t) (hle : t ≤ now) :
    (p14Get st now key mo).1 = (p14Get ⟨assocErase st.mem key, st.disk⟩ now key mo).1
    ∧ p14Has st now key mo = p14Has ⟨assocErase st.mem key, st.disk⟩ now key mo
    ∧ (cmGet st now key mo).1 = (cmGet ⟨assocErase st.mem key, st.disk⟩ now key mo).1 := by
  have he : assocFind (assocErase st.mem key) key = none := assocFind_assocErase_self _ _
  have hfresh : memFresh e now = false := by
    simp only [memFresh, hexp]
    rw [decide_eq_false_iff_not]
    push_neg
    exact ⟨ne_of_gt ht, hle⟩
  cases mo <;>
    simp [p14Get, p14Has, cmGet, hmem, he, hfresh, p14GetDisk_fst, cmGetDisk_fst]

/-- A state whose memory entry for `"k"` expired at 50 ms while the durable
tier still holds a live value. -/
def c10State : CacheState Nat := ⟨[("k", ⟨5, some 50⟩)], [("k", ⟨6, some 999999⟩)]⟩

/-- Witness for `memory_expiry_read_enforced` at `c10State`, `now = 100`. -/
theorem memory_expiry_read_enforced_witness :
    (p14Get c10State 100 "k" false).1
        = (p14Get ⟨assocErase c10State.mem "k", c10State.disk⟩ 100 "k" false).1
    ∧ p14Has c10State 100 "k" false
        = p14Has ⟨assocErase c10State.mem "k", c10State.disk⟩ 100 "k" false
    ∧ (cmGet c10State 100 "k" false).1
        = (cmGet ⟨assocErase c10State.mem "k", c10State.disk⟩ 100 "k" false).1 :=
  memory_expiry_read_enforced c10State 100 "k" ⟨5, some 50⟩ 50 false rfl rfl
    (by norm_num) (by norm_num)
